import Mathlib

/-!
Verification of the ClawSuite PTY helper (src/server/pty-helper.py).

The file shallowly embeds the helper's pure decision logic:
argument parsing with trailing defaults, the window-size call
(struct.pack of four unsigned 16-bit fields followed by an ioctl),
the SIGWINCH resize handler, the select-driven bridge loop, the
teardown sequence, and the child-side setup trace.  OS calls that can
fail (ioctl, kill, close, read, write) are modelled with explicit
outcome oracles; machine integers are Int/Nat with explicit range
checks where the source's struct packing imposes them.
-/

namespace PtyHelper

/-- Process environment, modelled as an association list
(first binding wins, matching dict lookup in os.environ). -/
abbrev Env := List (String × String)

/-- Lookup in the environment: os.environ.get(key) -/
def envGet : Env → String → Option String
  | [], _ => none
  | (k, v) :: rest, key => if k = key then some v else envGet rest key

/-- Lookup with default: os.environ.get(key, dflt) -/
def envGetD (e : Env) (key dflt : String) : String :=
  (envGet e key).getD dflt

/-- Characters stripped by Python's int() before parsing
(ASCII whitespace). -/
def isPySpace (c : Char) : Bool :=
  c = ' ' || c = '\t' || c = '\n' || c = '\r' || c = '\x0b' || c = '\x0c'

/-- Value of a nonempty all-digit character list, none otherwise. -/
def decDigitsVal : List Char → Option Nat
  | [] => none
  | cs =>
    if cs.all (fun c => c.isDigit) then
      some (cs.foldl (fun a c => a * 10 + (c.toNat - 48)) 0)
    else none

/-- Python's int(s) on a string: strip surrounding whitespace, optional
sign, then decimal digits; none models a raised ValueError.
(The underscore digit-grouping syntax of Python literals is not
modelled; no claim depends on it.) -/
def pyInt (s : String) : Option Int :=
  let core := ((s.toList.dropWhile isPySpace).reverse.dropWhile isPySpace).reverse
  match core with
  | '-' :: rest => (decDigitsVal rest).map (fun n => -(n : Int))
  | '+' :: rest => (decDigitsVal rest).map (fun n => (n : Int))
  | rest => (decDigitsVal rest).map (fun n => (n : Int))

/-- The winsize record written by the TIOCSWINSZ ioctl
(ws_row, ws_col; the pixel fields are always packed as 0). -/
structure WinSize where
  rows : Nat
  cols : Nat
deriving DecidableEq, Repr

/-- struct.pack of one 'H' (unsigned 16-bit) field: succeeds exactly
for 0 ≤ v < 65536, none models a raised struct.error. -/
def packH (v : Int) : Option Nat :=
  if 0 ≤ v ∧ v < 65536 then some v.toNat else none

/-- set_winsize(fd, rows, cols): struct.pack('HHHH', rows, cols, 0, 0)
followed by ioctl(fd, TIOCSWINSZ, s).  The packing is the fallible
pure part; the ioctl is assumed to succeed on a valid fd (the fallible
variant is setWinsizeCall below).  none models a raised exception. -/
def set_winsize (rows cols : Int) : Option WinSize :=
  match packH rows, packH cols with
  | some r, some c => some { rows := r, cols := c }
  | _, _ => none

/-- set_winsize together with the outcome of the ioctl itself
(ioctlOk = false models an ioctl failure such as EBADF on a
closed master fd; the pack failure is still checked first). -/
def setWinsizeCall (rows cols : Int) (ioctlOk : Bool) : Option WinSize :=
  match set_winsize rows cols with
  | some ws => if ioctlOk then some ws else none
  | none => none

/-- default_shell = '/bin/zsh' if sys.platform == 'darwin' else '/bin/bash' -/
def defaultShell (platform : String) : String :=
  if platform = "darwin" then "/bin/zsh" else "/bin/bash"

/-- shell = sys.argv[1] if len(sys.argv) > 1 else os.environ.get('SHELL', default_shell);
argv is the full argument vector including the program name. -/
def shellOf (argv : List String) (env : Env) (platform : String) : String :=
  match argv.get? 1 with
  | some s => s
  | none => envGetD env "SHELL" (defaultShell platform)

/-- cwd = sys.argv[2] if len(sys.argv) > 2 else os.environ.get('HOME', '/tmp') -/
def cwdRaw (argv : List String) (env : Env) : String :=
  match argv.get? 2 with
  | some s => s
  | none => envGetD env "HOME" "/tmp"

/-- cwd.startswith('~'): the first character is a tilde. -/
def headIsTilde (s : String) : Bool :=
  match s.toList with
  | '~' :: _ => true
  | _ => false

/-- Whether the string begins with the two characters tilde-slash. -/
def isTildeSlash (s : String) : Bool :=
  match s.toList with
  | '~' :: '/' :: _ => true
  | _ => false

/-- The string without its first character. -/
def dropHead (s : String) : String := String.mk (s.toList.drop 1)

/-- os.path.expanduser for the forms the claims mention: a bare "~" or
a leading "~/" is replaced by the HOME environment value.  The
"~user" form (which consults the system password database, state
outside this model) and the HOME-unset passwd fallback are left
unexpanded. -/
def expanduser (env : Env) (p : String) : String :=
  match envGet env "HOME" with
  | some home =>
    if p = "~" then home
    else if isTildeSlash p then home ++ dropHead p
    else p
  | none => p

/-- The working directory after the leading-tilde expansion step:
if cwd.startswith('~'): cwd = os.path.expanduser(cwd) -/
def cwdOf (argv : List String) (env : Env) : String :=
  let c := cwdRaw argv env
  if headIsTilde c then expanduser env c else c

/-- cols = int(sys.argv[3]) if len(sys.argv) > 3 else 80;
none models the ValueError raised by int(). -/
def colsArg (argv : List String) : Option Int :=
  match argv.get? 3 with
  | some s => pyInt s
  | none => some 80

/-- rows = int(sys.argv[4]) if len(sys.argv) > 4 else 24 -/
def rowsArg (argv : List String) : Option Int :=
  match argv.get? 4 with
  | some s => pyInt s
  | none => some 24

/-- The configuration main has established at the fork point: shell,
working directory, and the initial size applied to the master. -/
structure StartupOk where
  shell : String
  cwd : String
  size : WinSize
deriving DecidableEq, Repr

/-- The startup path of main up to and including the initial
set_winsize(master_fd, rows, cols), which all happen before os.fork:
none models an uncaught exception raised before any child is spawned
(int() on argv, or struct packing of an out-of-range size). -/
def startup (argv : List String) (env : Env) (platform : String) : Option StartupOk :=
  (colsArg argv).bind (fun c =>
    (rowsArg argv).bind (fun r =>
      (set_winsize r c).map (fun ws =>
        { shell := shellOf argv env platform, cwd := cwdOf argv env, size := ws })))

/-- Inputs of one run of the SIGWINCH handler: the two environment
values at delivery time, the cols/rows locals of main captured by the
handler's closure (the startup parse results, never reassigned), and
the outcomes of the two OS calls the handler makes. -/
structure WinchCtx where
  envCOLUMNS : Option String
  envLINES : Option String
  cols0 : Int
  rows0 : Int
  ioctlOk : Bool
  killOk : Bool
deriving DecidableEq, Repr

/-- Observable session state the handler can change: the size last
applied to the master (none before any successful application is
recorded) and the number of SIGWINCH signals delivered to the child. -/
structure WinchState where
  size : Option WinSize
  signalsToChild : Nat
deriving DecidableEq, Repr

/-- int(os.environ.get(key, dflt)): the environment value is parsed if
present, while the int default passes through int() unchanged. -/
def getThenInt (v : Option String) (dflt : Int) : Option Int :=
  match v with
  | some s => pyInt s
  | none => some dflt

/-- The handle_winch signal handler: parse COLUMNS then LINES (with
the closure's startup values as defaults), apply the size to the
master, then signal the child; the bare except swallows any raise, so
a failure at any point leaves the rest of the body unexecuted and the
observable state as it was. -/
def handle_winch (ctx : WinchCtx) (st : WinchState) : WinchState :=
  match (getThenInt ctx.envCOLUMNS ctx.cols0).bind (fun newCols =>
          (getThenInt ctx.envLINES ctx.rows0).bind (fun newRows =>
            setWinsizeCall newRows newCols ctx.ioctlOk)) with
  | none => st
  | some ws =>
    if ctx.killOk then { size := some ws, signalsToChild := st.signalsToChild + 1 }
    else { st with size := some ws }

/-- The read chunk size of the bridge loop: os.read(fd, 65536). -/
def CHUNK : Nat := 65536

/-- The select timeout of the bridge loop, in seconds:
select.select([master_fd, stdin_fd], [], [], 1.0). -/
def SELECT_TIMEOUT_SECONDS : Nat := 1

/-- Outcome of one os.read call: a byte string (b'' encodes
end-of-stream) or a raised OSError. -/
inductive ReadRes where
  | bytes (bs : List Nat)
  | readErr
deriving DecidableEq, Repr

/-- A read outcome that makes the loop break: zero-length data or a
raised OSError. -/
def readBad : ReadRes → Bool
  | .bytes bs => bs.isEmpty
  | .readErr => true

/-- Inputs of one iteration of the bridge loop: the readiness select
reported for each endpoint, the outcome each os.read would produce if
performed, and whether each forwarding os.write raises. -/
structure LoopInput where
  masterReady : Bool
  stdinReady : Bool
  masterRes : ReadRes
  stdinRes : ReadRes
  stdoutWriteErr : Bool
  masterWriteErr : Bool
deriving DecidableEq, Repr

/-- The os.read(fd, CHUNK) contract: a returned byte string never
exceeds the requested chunk size. -/
def LoopInput.wf (inp : LoopInput) : Prop :=
  (∀ bs, inp.masterRes = ReadRes.bytes bs → bs.length ≤ CHUNK) ∧
  (∀ bs, inp.stdinRes = ReadRes.bytes bs → bs.length ≤ CHUNK)

/-- File-descriptor level events of the parent process. -/
inductive PEvent where
  | readFd (fd : Nat)
  | writeFd (fd : Nat) (bs : List Nat)
  | closeFd (fd : Nat)
  | killChild
  | reapChild
deriving DecidableEq, Repr

/-- The stdin branch of the loop body: if stdin_fd in rlist, read up
to CHUNK; break on (b'' or OSError); otherwise write the data to the
master (a raised write error escapes to the outer except and also
ends the loop).  Returns the events performed and whether the loop
ends. -/
def stdinStep (masterFd stdinFd : Nat) (inp : LoopInput) : List PEvent × Bool :=
  if inp.stdinReady then
    match inp.stdinRes with
    | .readErr => ([.readFd stdinFd], true)
    | .bytes [] => ([.readFd stdinFd], true)
    | .bytes bs =>
      if inp.masterWriteErr then ([.readFd stdinFd, .writeFd masterFd bs], true)
      else ([.readFd stdinFd, .writeFd masterFd bs], false)
  else ([], false)

/-- One full iteration of the bridge loop body after the select call:
the master branch runs first, and when it breaks (or its write
raises) the stdin branch of the same iteration is not reached. -/
def runIter (masterFd stdinFd stdoutFd : Nat) (inp : LoopInput) : List PEvent × Bool :=
  if inp.masterReady then
    match inp.masterRes with
    | .readErr => ([.readFd masterFd], true)
    | .bytes [] => ([.readFd masterFd], true)
    | .bytes bs =>
      if inp.stdoutWriteErr then ([.readFd masterFd, .writeFd stdoutFd bs], true)
      else
        let rest := stdinStep masterFd stdinFd inp
        (.readFd masterFd :: .writeFd stdoutFd bs :: rest.1, rest.2)
  else stdinStep masterFd stdinFd inp

/-- The bridge loop over a finite schedule of select rounds: runs
iterations until one ends the loop or the schedule is exhausted.
Returns all events performed and whether the loop exited. -/
def runLoop (masterFd stdinFd stdoutFd : Nat) : List LoopInput → List PEvent × Bool
  | [] => ([], false)
  | inp :: rest =>
    let step := runIter masterFd stdinFd stdoutFd inp
    if step.2 then (step.1, true)
    else
      let cont := runLoop masterFd stdinFd stdoutFd rest
      (step.1 ++ cont.1, cont.2)

/-- The byte strings written to a given fd, in order. -/
def writesTo (fd : Nat) (evs : List PEvent) : List (List Nat) :=
  evs.filterMap (fun e =>
    match e with
    | PEvent.writeFd f bs => if f = fd then some bs else none
    | _ => none)

/-- Status of a stream endpoint as the OS sees it. -/
inductive ChanStatus where
  | live
  | closedByPeer
  | failed
deriving DecidableEq, Repr

/-- A stream endpoint: bytes buffered for reading plus its status. -/
structure Chan where
  pending : List Nat
  status : ChanStatus
deriving DecidableEq, Repr

/-- The select readiness contract: an fd is reported readable when
data is buffered or when a read would return immediately because the
peer closed or the stream failed. -/
def Chan.selectReady (c : Chan) : Bool :=
  !c.pending.isEmpty || !(c.status == ChanStatus.live)

/-- What os.read(fd, CHUNK) returns on this endpoint: buffered bytes
up to CHUNK, b'' at end-of-stream, OSError on a failed stream. -/
def Chan.readRes (c : Chan) : ReadRes :=
  if c.pending.isEmpty then
    match c.status with
    | ChanStatus.closedByPeer => ReadRes.bytes []
    | ChanStatus.failed => ReadRes.readErr
    | ChanStatus.live => ReadRes.bytes []
  else ReadRes.bytes (c.pending.take CHUNK)

/-- The LoopInput one select round produces from the two endpoint
states, together with the write-outcome oracles. -/
def mkLoopInput (master stdin : Chan) (stdoutWriteErr masterWriteErr : Bool) : LoopInput :=
  { masterReady := master.selectReady
    stdinReady := stdin.selectReady
    masterRes := master.readRes
    stdinRes := stdin.readRes
    stdoutWriteErr := stdoutWriteErr
    masterWriteErr := masterWriteErr }

/-- Failure oracles for the three teardown OS calls. -/
structure TdEnv where
  closeFails : Bool
  killFails : Bool
  waitFails : Bool
deriving DecidableEq, Repr

/-- Teardown observables: which calls were made, and whether an
exception is propagating to the caller at the end. -/
structure TdState where
  closeCalled : Bool
  killCalled : Bool
  waitCalled : Bool
  exn : Bool
deriving DecidableEq, Repr

/-- State at entry of the finally block. -/
def td0 : TdState :=
  { closeCalled := false, killCalled := false, waitCalled := false, exn := false }

/-- os.close(master_fd): skipped if an exception is already
propagating, otherwise performed and possibly raising. -/
def stepClose (e : TdEnv) (s : TdState) : TdState :=
  if s.exn then s else { s with closeCalled := true, exn := e.closeFails }

/-- os.kill(pid, signal.SIGTERM) -/
def stepKill (e : TdEnv) (s : TdState) : TdState :=
  if s.exn then s else { s with killCalled := true, exn := e.killFails }

/-- os.waitpid(pid, 0) -/
def stepWait (e : TdEnv) (s : TdState) : TdState :=
  if s.exn then s else { s with waitCalled := true, exn := e.waitFails }

/-- A try/except-pass block: not entered when an exception is already
propagating; otherwise runs the body and swallows whatever the body
raised. -/
def tryPass (body : TdState → TdState) (s : TdState) : TdState :=
  if s.exn then s
  else
    let s2 := body s
    { s2 with exn := false }

/-- The finally block of main: os.close(master_fd) unguarded, then a
try/except-pass around os.kill and os.waitpid. -/
def teardownRun (e : TdEnv) : TdState :=
  tryPass (fun s => stepWait e (stepKill e s)) (stepClose e td0)

/-- The fd-level events of the teardown sequence (a call skipped
because an earlier one raised produces no event). -/
def teardownEvents (e : TdEnv) (masterFd : Nat) : List PEvent :=
  if e.closeFails then [PEvent.closeFd masterFd]
  else if e.killFails then [PEvent.closeFd masterFd, PEvent.killChild]
  else [PEvent.closeFd masterFd, PEvent.killChild, PEvent.reapChild]

/-- The parent branch as an event trace: os.close(slave_fd) first,
then the bridge loop over its schedule, then teardown. -/
def parentTrace (masterFd slaveFd stdinFd stdoutFd : Nat)
    (inputs : List LoopInput) (e : TdEnv) : List PEvent :=
  PEvent.closeFd slaveFd ::
    ((runLoop masterFd stdinFd stdoutFd inputs).1 ++ teardownEvents e masterFd)

/-- Whether an event is a read of or a write to the given fd. -/
def PEvent.isReadWriteOn (fd : Nat) : PEvent → Bool
  | .readFd f => f == fd
  | .writeFd f _ => f == fd
  | _ => false

/-- What an fd of the child refers to. -/
inductive PtyEnd where
  | masterEnd
  | slaveEnd
  | otherEnd (n : Nat)
deriving DecidableEq, Repr

/-- The system actions of the child branch, in program order. -/
inductive ChildEvent where
  | setsid
  | closeFd (fd : Nat)
  | setCtty (fd : Nat)
  | dup2 (src dst : Nat)
  | chdir (d : String)
  | setenv (key val : String)
  | exec (prog : String) (args : List String)
deriving DecidableEq, Repr

/-- The child branch of main, as written: setsid, close the master,
TIOCSCTTY on the slave, dup2 the slave onto 0/1/2, close the slave's
original descriptor when it is above 2, chdir, set TERM and
COLORTERM, execvp the shell with the interactive flag. -/
def childTrace (shell cwd : String) (masterFd slaveFd : Nat) : List ChildEvent :=
  [ChildEvent.setsid, ChildEvent.closeFd masterFd, ChildEvent.setCtty slaveFd,
   ChildEvent.dup2 slaveFd 0, ChildEvent.dup2 slaveFd 1, ChildEvent.dup2 slaveFd 2]
  ++ (if 2 < slaveFd then [ChildEvent.closeFd slaveFd] else [])
  ++ [ChildEvent.chdir cwd,
      ChildEvent.setenv "TERM" "xterm-256color",
      ChildEvent.setenv "COLORTERM" "truecolor",
      ChildEvent.exec shell [shell, "-i"]]

/-- OS-visible state of the child: its descriptor table, working
directory, environment, and (once exec runs) the program image. -/
structure ChildOs where
  fds : Nat → Option PtyEnd
  curDir : String
  envTbl : Env
  image : Option (String × List String)

/-- Set an environment variable (newest binding first, matching dict
update under the first-match lookup of envGet). -/
def envSet (e : Env) (k v : String) : Env := (k, v) :: e

/-- Effect of one child action on the OS-visible child state:
dup2 src dst makes dst refer to whatever src refers to now, close
empties a table slot, setsid and the controlling-terminal ioctl do
not touch the modelled state. -/
def applyChildEvent (s : ChildOs) : ChildEvent → ChildOs
  | ChildEvent.setsid => s
  | ChildEvent.closeFd fd => { s with fds := fun n => if n = fd then none else s.fds n }
  | ChildEvent.setCtty _ => s
  | ChildEvent.dup2 src dst => { s with fds := fun n => if n = dst then s.fds src else s.fds n }
  | ChildEvent.chdir d => { s with curDir := d }
  | ChildEvent.setenv k v => { s with envTbl := envSet s.envTbl k v }
  | ChildEvent.exec p a => { s with image := some (p, a) }

/-- The child state after running the whole child branch. -/
def childRun (shell cwd : String) (masterFd slaveFd : Nat) (init : ChildOs) : ChildOs :=
  (childTrace shell cwd masterFd slaveFd).foldl applyChildEvent init

/-- Closed form of set_winsize: it succeeds exactly when both values
pack as unsigned 16-bit fields, and applies them unchanged. -/
theorem set_winsize_eq (rows cols : Int) :
    set_winsize rows cols =
      if (0 ≤ rows ∧ rows < 65536) ∧ (0 ≤ cols ∧ cols < 65536) then
        some { rows := rows.toNat, cols := cols.toNat }
      else none := by
  unfold set_winsize packH
  by_cases h1 : 0 ≤ rows ∧ rows < 65536 <;> by_cases h2 : 0 ≤ cols ∧ cols < 65536 <;>
    simp [h1, h2]

/-- Claim C1, corrected.  The 80x24 default is taken only when the
corresponding invocation parameters are absent (then startup applies
exactly 24 rows by 80 cols); a supplied value is applied by
set_winsize without any "at least 1" validation whenever it packs as
an unsigned 16-bit field, and an out-of-range value makes set_winsize
raise rather than fall back to the default. -/
theorem C1_default_size_only_when_absent :
    (∀ argv env platform, argv.get? 3 = none → argv.get? 4 = none →
      startup argv env platform =
        some { shell := shellOf argv env platform, cwd := cwdOf argv env,
               size := { rows := 24, cols := 80 } }) ∧
    (∀ rows cols : Int, 0 ≤ rows → rows < 65536 → 0 ≤ cols → cols < 65536 →
      set_winsize rows cols = some { rows := rows.toNat, cols := cols.toNat }) ∧
    (∀ rows cols : Int, rows < 0 ∨ 65536 ≤ rows ∨ cols < 0 ∨ 65536 ≤ cols →
      set_winsize rows cols = none) := by
  refine ⟨?_, ?_, ?_⟩
  · intro argv env platform h3 h4
    have hca : colsArg argv = some 80 := by unfold colsArg; rw [h3]
    have hra : rowsArg argv = some 24 := by unfold rowsArg; rw [h4]
    unfold startup
    rw [hca, hra]
    norm_num [set_winsize_eq]
    exact ⟨rfl, rfl⟩
  · intro rows cols ha hb hc hd
    rw [set_winsize_eq, if_pos ⟨⟨ha, hb⟩, ⟨hc, hd⟩⟩]
  · intro rows cols h
    rw [set_winsize_eq, if_neg]
    omega

/-- Claim C1, counterexample to the claim as stated: an invocation
supplying cols = 0 and rows = 0 (both below 1) leads startup to apply
the size 0x0 verbatim, not the default 80x24. -/
theorem C1_counterexample :
    startup ["pty-helper.py", "/bin/sh", "/tmp", "0", "0"] [] "linux"
      = some { shell := "/bin/sh", cwd := "/tmp", size := { rows := 0, cols := 0 } }
    ∧ ({ rows := 0, cols := 0 } : WinSize) ≠ { rows := 24, cols := 80 } :=
  ⟨by decide, by decide⟩

/-- Witness for C1_default_size_only_when_absent at concrete inputs. -/
theorem C1_witness :
    startup ["pty-helper.py"] [] "linux"
      = some { shell := shellOf ["pty-helper.py"] [] "linux",
               cwd := cwdOf ["pty-helper.py"] [],
               size := { rows := 24, cols := 80 } }
    ∧ set_winsize 0 0 = some { rows := 0, cols := 0 }
    ∧ set_winsize (-1) 10 = none :=
  ⟨C1_default_size_only_when_absent.1 ["pty-helper.py"] [] "linux" rfl rfl,
   C1_default_size_only_when_absent.2.1 0 0 (by decide) (by decide) (by decide) (by decide),
   C1_default_size_only_when_absent.2.2 (-1) 10 (Or.inl (by decide))⟩

/-- Claim C9, confirmed.  For every invocation (either size argument
supplied or absent), startup — whose work up to the initial
set_winsize all precedes the fork — completes exactly when the
effective column and row values (the parse of a supplied string, or
the 80/24 default when absent) are integers in [0, 65536); on
success the applied size is exactly those values, never a
substituted default, and in every other case (a supplied argument
that is negative, at least 65536, or not a decimal integer string)
it raises before any child is spawned. -/
theorem C9_startup_range (argv : List String) (env : Env) (platform : String) :
    ((∃ st, startup argv env platform = some st) ↔
      ∃ c r, colsArg argv = some c ∧ rowsArg argv = some r ∧
        (0 ≤ c ∧ c < 65536) ∧ (0 ≤ r ∧ r < 65536)) ∧
    (∀ st, startup argv env platform = some st →
      ∃ c r, colsArg argv = some c ∧ rowsArg argv = some r ∧
        st.size = { rows := r.toNat, cols := c.toNat }) ∧
    (∀ s3, argv.get? 3 = some s3 → colsArg argv = pyInt s3) ∧
    (∀ s4, argv.get? 4 = some s4 → rowsArg argv = pyInt s4) ∧
    (argv.get? 3 = none → colsArg argv = some 80) ∧
    (argv.get? 4 = none → rowsArg argv = some 24) := by
  have hmain :
      ((∃ st, startup argv env platform = some st) ↔
        ∃ c r, colsArg argv = some c ∧ rowsArg argv = some r ∧
          (0 ≤ c ∧ c < 65536) ∧ (0 ≤ r ∧ r < 65536)) ∧
      (∀ st, startup argv env platform = some st →
        ∃ c r, colsArg argv = some c ∧ rowsArg argv = some r ∧
          st.size = { rows := r.toNat, cols := c.toNat }) := by
    unfold startup
    cases hc : colsArg argv with
    | none => simp
    | some c =>
      cases hr : rowsArg argv with
      | none => simp
      | some r =>
        simp only [Option.some_bind]
        rw [set_winsize_eq]
        by_cases h : (0 ≤ r ∧ r < 65536) ∧ (0 ≤ c ∧ c < 65536)
        · rw [if_pos h]
          constructor
          · constructor
            · intro _
              exact ⟨c, r, rfl, rfl, h.2, h.1⟩
            · intro _
              exact ⟨_, rfl⟩
          · intro st hst
            refine ⟨c, r, rfl, rfl, ?_⟩
            simp only [Option.map_some', Option.some.injEq] at hst
            rw [← hst]
        · rw [if_neg h]
          simp only [Option.map_none']
          constructor
          · constructor
            · rintro ⟨st, hst⟩
              exact Option.noConfusion hst
            · rintro ⟨c2, r2, hc2, hr2, hcb, hrb⟩
              cases Option.some.inj hc2
              cases Option.some.inj hr2
              exact absurd ⟨hrb, hcb⟩ h
          · intro st hst
            exact absurd hst (by simp)
  refine ⟨hmain.1, hmain.2, ?_, ?_, ?_, ?_⟩
  · intro s3 h
    unfold colsArg
    rw [h]
  · intro s4 h
    unfold rowsArg
    rw [h]
  · intro h
    unfold colsArg
    rw [h]
  · intro h
    unfold rowsArg
    rw [h]

/-- Witness for C9_startup_range at a concrete invocation that
supplies only an out-of-range column argument (the row argument is
absent and defaults): startup raises before the fork. -/
theorem C9_witness :
    ((∃ st, startup ["pty-helper.py", "/bin/sh", "/tmp", "99999"] [] "linux" = some st) ↔
      ∃ c r, colsArg ["pty-helper.py", "/bin/sh", "/tmp", "99999"] = some c ∧
        rowsArg ["pty-helper.py", "/bin/sh", "/tmp", "99999"] = some r ∧
        (0 ≤ c ∧ c < 65536) ∧ (0 ≤ r ∧ r < 65536)) ∧
    colsArg ["pty-helper.py", "/bin/sh", "/tmp", "99999"] = pyInt "99999" ∧
    rowsArg ["pty-helper.py", "/bin/sh", "/tmp", "99999"] = some 24 ∧
    startup ["pty-helper.py", "/bin/sh", "/tmp", "99999"] [] "linux" = none :=
  ⟨(C9_startup_range ["pty-helper.py", "/bin/sh", "/tmp", "99999"] [] "linux").1,
   (C9_startup_range ["pty-helper.py", "/bin/sh", "/tmp", "99999"] [] "linux").2.2.1
     "99999" rfl,
   (C9_startup_range ["pty-helper.py", "/bin/sh", "/tmp", "99999"] [] "linux").2.2.2.2.2
     rfl,
   by decide⟩

/-- Claim C6, counterexample to the claim as stated: with no working
directory argument and no HOME in the environment, the working
directory defaults to the fixed path /tmp, while the environment
names no home directory at all, so the default is not the invoking
user's home directory. -/
theorem C6_counterexample :
    cwdOf ["pty-helper.py"] [] = "/tmp"
    ∧ envGet ([] : Env) "HOME" = none
    ∧ ¬ ∃ h, envGet ([] : Env) "HOME" = some h ∧ cwdOf ["pty-helper.py"] [] = h := by
  refine ⟨by decide, rfl, ?_⟩
  rintro ⟨h, hh, _⟩
  exact Option.noConfusion hh

/-- Claim C6, corrected.  Missing trailing parameters default as
follows: the shell to the SHELL environment value and otherwise the
platform default; the working directory to the HOME environment value
when set and to /tmp otherwise, with a leading tilde expanded when
given; the column count to 80 and the row count to 24. -/
theorem C6_defaults :
    (∀ argv env platform, argv.get? 1 = none →
      shellOf argv env platform = envGetD env "SHELL" (defaultShell platform)) ∧
    (∀ argv env home, argv.get? 2 = none → envGet env "HOME" = some home →
      headIsTilde home = false → cwdOf argv env = home) ∧
    (∀ argv env, argv.get? 2 = none → envGet env "HOME" = none →
      cwdOf argv env = "/tmp") ∧
    (∀ argv env c, argv.get? 2 = some c → headIsTilde c = true →
      cwdOf argv env = expanduser env c) ∧
    (∀ argv, argv.get? 3 = none → colsArg argv = some 80) ∧
    (∀ argv, argv.get? 4 = none → rowsArg argv = some 24) := by
  refine ⟨?_, ?_, ?_, ?_, ?_, ?_⟩
  · intro argv env platform h1
    unfold shellOf
    rw [h1]
  · intro argv env home h1 h2 h3
    unfold cwdOf cwdRaw envGetD
    rw [h1, h2]
    simp [h3]
  · intro argv env h1 h2
    have ht : headIsTilde "/tmp" = false := by decide
    unfold cwdOf cwdRaw envGetD
    rw [h1, h2]
    simp [ht]
  · intro argv env c h1 h2
    unfold cwdOf cwdRaw
    rw [h1]
    simp [h2]
  · intro argv h1
    unfold colsArg
    rw [h1]
  · intro argv h1
    unfold rowsArg
    rw [h1]

/-- Witness for C6_defaults at concrete inputs. -/
theorem C6_witness :
    shellOf ["pty-helper.py"] [("SHELL", "/bin/fish")] "linux"
      = envGetD [("SHELL", "/bin/fish")] "SHELL" (defaultShell "linux")
    ∧ cwdOf ["pty-helper.py"] [("HOME", "/home/u")] = "/home/u"
    ∧ cwdOf ["pty-helper.py"] [] = "/tmp"
    ∧ cwdOf ["pty-helper.py", "/bin/sh", "~/work"] [("HOME", "/home/u")]
      = expanduser [("HOME", "/home/u")] "~/work"
    ∧ colsArg ["pty-helper.py"] = some 80
    ∧ rowsArg ["pty-helper.py"] = some 24 :=
  ⟨C6_defaults.1 ["pty-helper.py"] [("SHELL", "/bin/fish")] "linux" rfl,
   C6_defaults.2.1 ["pty-helper.py"] [("HOME", "/home/u")] "/home/u" rfl rfl (by decide),
   C6_defaults.2.2.1 ["pty-helper.py"] [] rfl rfl,
   C6_defaults.2.2.2.1 ["pty-helper.py", "/bin/sh", "~/work"] [("HOME", "/home/u")]
     "~/work" rfl (by decide),
   C6_defaults.2.2.2.2.1 ["pty-helper.py"] rfl,
   C6_defaults.2.2.2.2.2 ["pty-helper.py"] rfl⟩

/-- Claim C2, counterexample to the claim as stated: with COLUMNS
missing from the environment, LINES = "50", and a last applied size
of 24x80 recorded on the master, the handler does not retain the last
known size — it applies 50 rows by 80 cols (the cols fallback being
the closure's startup value). -/
theorem C2_counterexample :
    (handle_winch
        { envCOLUMNS := none, envLINES := some "50", cols0 := 80, rows0 := 24,
          ioctlOk := true, killOk := true }
        { size := some { rows := 24, cols := 80 }, signalsToChild := 0 }).size
      = some { rows := 50, cols := 80 }
    ∧ (handle_winch
        { envCOLUMNS := none, envLINES := some "50", cols0 := 80, rows0 := 24,
          ioctlOk := true, killOk := true }
        { size := some { rows := 24, cols := 80 }, signalsToChild := 0 }).size
      ≠ some { rows := 24, cols := 80 } :=
  ⟨by decide, by decide⟩

/-- Claim C2, corrected.  If either environment value is unparsable
the whole update is abandoned and the last applied size is retained;
but a missing value falls back to the closure's startup value for
that dimension (the initial size, not the most recently applied one)
and the update still proceeds with it. -/
theorem C2_resize_fallback :
    (∀ ctx st, getThenInt ctx.envCOLUMNS ctx.cols0 = none → handle_winch ctx st = st) ∧
    (∀ ctx st, getThenInt ctx.envLINES ctx.rows0 = none → handle_winch ctx st = st) ∧
    (∀ ctx : WinchCtx, ctx.envCOLUMNS = none →
      getThenInt ctx.envCOLUMNS ctx.cols0 = some ctx.cols0) ∧
    (∀ ctx : WinchCtx, ctx.envLINES = none →
      getThenInt ctx.envLINES ctx.rows0 = some ctx.rows0) ∧
    (∀ ctx st newRows ws, ctx.envCOLUMNS = none →
      getThenInt ctx.envLINES ctx.rows0 = some newRows →
      setWinsizeCall newRows ctx.cols0 ctx.ioctlOk = some ws →
      (handle_winch ctx st).size = some ws) := by
  refine ⟨?_, ?_, ?_, ?_, ?_⟩
  · intro ctx st h
    simp [handle_winch, h]
  · intro ctx st h
    cases hc : getThenInt ctx.envCOLUMNS ctx.cols0 with
    | none => simp [handle_winch, hc]
    | some newCols => simp [handle_winch, hc, h]
  · intro ctx h
    unfold getThenInt
    rw [h]
  · intro ctx h
    unfold getThenInt
    rw [h]
  · intro ctx st newRows ws h1 h2 h3
    have hc : getThenInt ctx.envCOLUMNS ctx.cols0 = some ctx.cols0 := by
      unfold getThenInt
      rw [h1]
    cases hk : ctx.killOk <;> simp [handle_winch, hc, h2, h3, hk]

/-- Witness for C2_resize_fallback at concrete inputs. -/
theorem C2_witness :
    handle_winch
        { envCOLUMNS := some "abc", envLINES := some "30", cols0 := 80, rows0 := 24,
          ioctlOk := true, killOk := true }
        { size := some { rows := 24, cols := 80 }, signalsToChild := 0 }
      = { size := some { rows := 24, cols := 80 }, signalsToChild := 0 }
    ∧ handle_winch
        { envCOLUMNS := some "100", envLINES := some "x", cols0 := 80, rows0 := 24,
          ioctlOk := true, killOk := true }
        { size := some { rows := 24, cols := 80 }, signalsToChild := 0 }
      = { size := some { rows := 24, cols := 80 }, signalsToChild := 0 }
    ∧ getThenInt (none : Option String) (80 : Int) = some 80
    ∧ getThenInt (none : Option String) (24 : Int) = some 24
    ∧ (handle_winch
        { envCOLUMNS := none, envLINES := some "50", cols0 := 80, rows0 := 24,
          ioctlOk := true, killOk := false }
        { size := some { rows := 24, cols := 80 }, signalsToChild := 0 }).size
      = some { rows := 50, cols := 80 } :=
  ⟨C2_resize_fallback.1 _ _ (by decide),
   C2_resize_fallback.2.1 _ _ (by decide),
   C2_resize_fallback.2.2.1
     { envCOLUMNS := none, envLINES := some "1", cols0 := 80, rows0 := 24,
       ioctlOk := true, killOk := true } rfl,
   C2_resize_fallback.2.2.2.1
     { envCOLUMNS := some "1", envLINES := none, cols0 := 80, rows0 := 24,
       ioctlOk := true, killOk := true } rfl,
   C2_resize_fallback.2.2.2.2 _ _ 50 { rows := 50, cols := 80 } rfl (by decide) (by decide)⟩

/-- Claim C3, counterexample to the claim as stated: when closing the
master handle fails, the termination-signal and reap steps are never
attempted and the error propagates to the caller, so the three
teardown steps are not independent and teardown does not always
complete cleanly. -/
theorem C3_counterexample :
    (teardownRun { closeFails := true, killFails := false, waitFails := false }).killCalled
      = false
    ∧ (teardownRun { closeFails := true, killFails := false, waitFails := false }).waitCalled
      = false
    ∧ (teardownRun { closeFails := true, killFails := false, waitFails := false }).exn
      = true :=
  ⟨by decide, by decide, by decide⟩

/-- Claim C3, corrected.  The termination signal and the reap share
one guard: when the close succeeds, both failures there are caught
and ignored (though a signal failure skips the reap); but the close
of the master handle is unguarded, so a close failure propagates to
the caller and skips the signal and reap steps entirely. -/
theorem C3_teardown :
    (∀ e : TdEnv, e.closeFails = false →
      (teardownRun e).closeCalled = true ∧ (teardownRun e).killCalled = true ∧
      (teardownRun e).exn = false ∧ (teardownRun e).waitCalled = !e.killFails) ∧
    (∀ e : TdEnv, e.closeFails = true →
      (teardownRun e).closeCalled = true ∧ (teardownRun e).killCalled = false ∧
      (teardownRun e).waitCalled = false ∧ (teardownRun e).exn = true) := by
  constructor
  · intro e h
    obtain ⟨cf, kf, wf⟩ := e
    cases h
    cases kf <;> cases wf <;> exact ⟨rfl, rfl, rfl, rfl⟩
  · intro e h
    obtain ⟨cf, kf, wf⟩ := e
    cases h
    cases kf <;> cases wf <;> exact ⟨rfl, rfl, rfl, rfl⟩

/-- Witness for C3_teardown at concrete failure oracles. -/
theorem C3_witness :
    ((teardownRun { closeFails := false, killFails := true, waitFails := false }).closeCalled
        = true
      ∧ (teardownRun { closeFails := false, killFails := true, waitFails := false }).killCalled
        = true
      ∧ (teardownRun { closeFails := false, killFails := true, waitFails := false }).exn
        = false
      ∧ (teardownRun { closeFails := false, killFails := true, waitFails := false }).waitCalled
        = !true)
    ∧ ((teardownRun { closeFails := true, killFails := true, waitFails := false }).closeCalled
        = true
      ∧ (teardownRun { closeFails := true, killFails := true, waitFails := false }).killCalled
        = false
      ∧ (teardownRun { closeFails := true, killFails := true, waitFails := false }).waitCalled
        = false
      ∧ (teardownRun { closeFails := true, killFails := true, waitFails := false }).exn
        = true) :=
  ⟨C3_teardown.1 { closeFails := false, killFails := true, waitFails := false } rfl,
   C3_teardown.2 { closeFails := true, killFails := true, waitFails := false } rfl⟩

/-- Claim C10, counterexample to the claim as stated: with both
environment values valid and the ioctl succeeding but the subsequent
os.kill raising (reachable, e.g. EPERM once the shell has exec'd a
setuid program), the handler records the new size 40x100 without
delivering any window-change signal — the size update and the child
notification did not happen together or not at all. -/
theorem C10_counterexample :
    (handle_winch
        { envCOLUMNS := some "100", envLINES := some "40", cols0 := 80, rows0 := 24,
          ioctlOk := true, killOk := false }
        { size := some { rows := 24, cols := 80 }, signalsToChild := 0 }).size
      ≠ some { rows := 24, cols := 80 }
    ∧ (handle_winch
        { envCOLUMNS := some "100", envLINES := some "40", cols0 := 80, rows0 := 24,
          ioctlOk := true, killOk := false }
        { size := some { rows := 24, cols := 80 }, signalsToChild := 0 }).signalsToChild
      = 0 :=
  ⟨by decide, by decide⟩

/-- Claim C10, corrected.  A parse failure of either environment
value, or a failure applying the size, leaves the recorded size and
the signal count both unchanged, and a delivered signal always comes
together with a successful size application; but the pairing is not
atomic in the other direction: when the size application succeeds and
the subsequent os.kill raises, the bare except swallows the error
after the size was already applied, so the new size is retained with
no window-change notification to the child. -/
theorem C10_winch_failure_atomic (ctx : WinchCtx) (st : WinchState) :
    ((getThenInt ctx.envCOLUMNS ctx.cols0 = none ∨
       getThenInt ctx.envLINES ctx.rows0 = none) → handle_winch ctx st = st) ∧
    (∀ newCols newRows, getThenInt ctx.envCOLUMNS ctx.cols0 = some newCols →
       getThenInt ctx.envLINES ctx.rows0 = some newRows →
       setWinsizeCall newRows newCols ctx.ioctlOk = none →
       handle_winch ctx st = st) ∧
    (∀ newCols newRows ws, getThenInt ctx.envCOLUMNS ctx.cols0 = some newCols →
       getThenInt ctx.envLINES ctx.rows0 = some newRows →
       setWinsizeCall newRows newCols ctx.ioctlOk = some ws →
       ctx.killOk = true →
       handle_winch ctx st
         = { size := some ws, signalsToChild := st.signalsToChild + 1 }) ∧
    (∀ newCols newRows ws, getThenInt ctx.envCOLUMNS ctx.cols0 = some newCols →
       getThenInt ctx.envLINES ctx.rows0 = some newRows →
       setWinsizeCall newRows newCols ctx.ioctlOk = some ws →
       ctx.killOk = false →
       handle_winch ctx st
         = { size := some ws, signalsToChild := st.signalsToChild }) ∧
    ((handle_winch ctx st).signalsToChild ≠ st.signalsToChild →
       ∃ ws, (handle_winch ctx st).size = some ws ∧
         (handle_winch ctx st).signalsToChild = st.signalsToChild + 1) := by
  refine ⟨?_, ?_, ?_, ?_, ?_⟩
  · rintro (h | h)
    · simp [handle_winch, h]
    · cases hc : getThenInt ctx.envCOLUMNS ctx.cols0 with
      | none => simp [handle_winch, hc]
      | some newCols => simp [handle_winch, hc, h]
  · intro newCols newRows h1 h2 h3
    simp [handle_winch, h1, h2, h3]
  · intro newCols newRows ws h1 h2 h3 hk
    simp [handle_winch, h1, h2, h3, hk]
  · intro newCols newRows ws h1 h2 h3 hk
    simp [handle_winch, h1, h2, h3, hk]
  · intro hch
    cases hc : getThenInt ctx.envCOLUMNS ctx.cols0 with
    | none => simp [handle_winch, hc] at hch
    | some newCols =>
      cases hr : getThenInt ctx.envLINES ctx.rows0 with
      | none => simp [handle_winch, hc, hr] at hch
      | some newRows =>
        cases hw : setWinsizeCall newRows newCols ctx.ioctlOk with
        | none => simp [handle_winch, hc, hr, hw] at hch
        | some ws =>
          cases hk : ctx.killOk with
          | false => simp [handle_winch, hc, hr, hw, hk] at hch
          | true => exact ⟨ws, by simp [handle_winch, hc, hr, hw, hk]⟩

/-- Witness for C10_winch_failure_atomic at concrete contexts for the
successful-signal, failing-signal and parse-failure cases. -/
theorem C10_witness :
    handle_winch
        { envCOLUMNS := some "100", envLINES := some "40", cols0 := 80, rows0 := 24,
          ioctlOk := true, killOk := true }
        { size := some { rows := 24, cols := 80 }, signalsToChild := 0 }
      = { size := some { rows := 40, cols := 100 }, signalsToChild := 0 + 1 }
    ∧ handle_winch
        { envCOLUMNS := some "100", envLINES := some "40", cols0 := 80, rows0 := 24,
          ioctlOk := true, killOk := false }
        { size := some { rows := 24, cols := 80 }, signalsToChild := 0 }
      = { size := some { rows := 40, cols := 100 }, signalsToChild := 0 }
    ∧ handle_winch
        { envCOLUMNS := some "x", envLINES := some "40", cols0 := 80, rows0 := 24,
          ioctlOk := true, killOk := true }
        { size := some { rows := 24, cols := 80 }, signalsToChild := 0 }
      = { size := some { rows := 24, cols := 80 }, signalsToChild := 0 } := by
  refine ⟨?_, ?_, ?_⟩
  · exact (C10_winch_failure_atomic
      { envCOLUMNS := some "100", envLINES := some "40", cols0 := 80, rows0 := 24,
        ioctlOk := true, killOk := true }
      { size := some { rows := 24, cols := 80 }, signalsToChild := 0 }).2.2.1
      100 40 { rows := 40, cols := 100 } (by decide) (by decide) (by decide) rfl
  · exact (C10_winch_failure_atomic
      { envCOLUMNS := some "100", envLINES := some "40", cols0 := 80, rows0 := 24,
        ioctlOk := true, killOk := false }
      { size := some { rows := 24, cols := 80 }, signalsToChild := 0 }).2.2.2.1
      100 40 { rows := 40, cols := 100 } (by decide) (by decide) (by decide) rfl
  · exact (C10_winch_failure_atomic
      { envCOLUMNS := some "x", envLINES := some "40", cols0 := 80, rows0 := 24,
        ioctlOk := true, killOk := true }
      { size := some { rows := 24, cols := 80 }, signalsToChild := 0 }).1
      (Or.inl (by decide))

/-- Exit characterization of one loop iteration: the iteration ends
the loop exactly when a performed read is bad or the following
forwarding write raises. -/
theorem runIter_exit (m i o : Nat) (inp : LoopInput) :
    (runIter m i o inp).2 =
      ((inp.masterReady && (readBad inp.masterRes || inp.stdoutWriteErr)) ||
       (inp.stdinReady && (readBad inp.stdinRes || inp.masterWriteErr))) := by
  obtain ⟨mr, sr, mres, sres, woe, wme⟩ := inp
  rcases mres with ⟨_ | ⟨b, bsm⟩⟩ | _ <;> rcases sres with ⟨_ | ⟨c, bss⟩⟩ | _ <;>
    cases mr <;> cases sr <;> cases woe <;> cases wme <;>
      simp [runIter, stdinStep, readBad]

/-- Every event of one loop iteration is a read of the master or
stdin fd, or a write of previously read bytes to stdout or to the
master. -/
theorem runIter_events (m i o : Nat) (inp : LoopInput) :
    ∀ ev ∈ (runIter m i o inp).1,
      ev = PEvent.readFd m ∨ ev = PEvent.readFd i ∨
      (∃ bs, ev = PEvent.writeFd o bs ∧ inp.masterRes = ReadRes.bytes bs) ∨
      (∃ bs, ev = PEvent.writeFd m bs ∧ inp.stdinRes = ReadRes.bytes bs) := by
  obtain ⟨mr, sr, mres, sres, woe, wme⟩ := inp
  intro ev hev
  rcases mres with ⟨_ | ⟨b, bsm⟩⟩ | _ <;> rcases sres with ⟨_ | ⟨c, bss⟩⟩ | _ <;>
    cases mr <;> cases sr <;> cases woe <;> cases wme <;>
      simp [runIter, stdinStep] at hev <;> aesop

/-- The master-to-stdout forwarding of one iteration: exactly the
bytes read from the master, when any, are written to stdout. -/
theorem runIter_writes_stdout (m i o : Nat) (inp : LoopInput) (hfd : m ≠ o) :
    (∀ bs, inp.masterReady = true → inp.masterRes = ReadRes.bytes bs → bs ≠ [] →
      writesTo o (runIter m i o inp).1 = [bs]) ∧
    ((inp.masterReady = false ∨ readBad inp.masterRes = true) →
      writesTo o (runIter m i o inp).1 = []) := by
  obtain ⟨mr, sr, mres, sres, woe, wme⟩ := inp
  constructor
  · intro bs h1 h2 h3
    cases h1
    cases h2
    rcases bs with _ | ⟨b, bsm⟩
    · exact absurd rfl h3
    · rcases sres with ⟨_ | ⟨c, bss⟩⟩ | _ <;> cases sr <;> cases woe <;> cases wme <;>
        simp [runIter, stdinStep, writesTo, hfd]
  · intro h
    rcases mres with ⟨_ | ⟨b, bsm⟩⟩ | _ <;> rcases sres with ⟨_ | ⟨c, bss⟩⟩ | _ <;>
      cases mr <;> cases sr <;> cases woe <;> cases wme <;>
        simp [runIter, stdinStep, writesTo, readBad, hfd, Ne.symm hfd] at h ⊢

/-- The stdin-to-master forwarding of one iteration: when the master
branch does not end the loop first, exactly the bytes read from stdin,
when any, are written to the master. -/
theorem runIter_writes_master (m i o : Nat) (inp : LoopInput) (hfd : m ≠ o) :
    (∀ bs, (inp.masterReady = false ∨
        (readBad inp.masterRes = false ∧ inp.stdoutWriteErr = false)) →
      inp.stdinReady = true → inp.stdinRes = ReadRes.bytes bs → bs ≠ [] →
      writesTo m (runIter m i o inp).1 = [bs]) ∧
    ((inp.stdinReady = false ∨ readBad inp.stdinRes = true) →
      writesTo m (runIter m i o inp).1 = []) := by
  obtain ⟨mr, sr, mres, sres, woe, wme⟩ := inp
  constructor
  · intro bs h0 h1 h2 h3
    cases h1
    cases h2
    rcases bs with _ | ⟨c, bss⟩
    · exact absurd rfl h3
    · rcases mres with ⟨_ | ⟨b, bsm⟩⟩ | _ <;> cases mr <;> cases woe <;> cases wme <;>
        simp [runIter, stdinStep, writesTo, readBad, Ne.symm hfd] at h0 ⊢
  · intro h
    rcases mres with ⟨_ | ⟨b, bsm⟩⟩ | _ <;> rcases sres with ⟨_ | ⟨c, bss⟩⟩ | _ <;>
      cases mr <;> cases sr <;> cases woe <;> cases wme <;>
        simp [runIter, stdinStep, writesTo, readBad, Ne.symm hfd] at h ⊢

/-- Claim C4, counterexample to the claim as stated: an iteration in
which the master read succeeds with data but the write to the
caller's output raises exits the loop (through the except handler
around the loop) although no read returned zero bytes or raised. -/
theorem C4_counterexample :
    (runIter 3 0 1
        { masterReady := true, stdinReady := false,
          masterRes := ReadRes.bytes [104, 105], stdinRes := ReadRes.bytes [],
          stdoutWriteErr := true, masterWriteErr := false }).2 = true
    ∧ ¬ ((true = true ∧ readBad (ReadRes.bytes [104, 105]) = true) ∨
         (false = true ∧ readBad (ReadRes.bytes []) = true)) :=
  ⟨by decide, by decide⟩

/-- Claim C4, corrected.  In every iteration: each performed read
takes at most 65536 bytes, and the bytes a performed read returns are
written exactly, unmodified and in order, to the opposite endpoint
(master to stdout, stdin to master, the stdin branch being skipped
when the master branch already ended the loop); the loop exits if and
only if a performed read returns zero bytes or raises, or a
forwarding write raises (the except handler wrapping the loop turns
write errors into loop exit as well). -/
theorem C4_bridge_iteration (masterFd stdinFd stdoutFd : Nat) (inp : LoopInput)
    (hwf : inp.wf) (hfd : masterFd ≠ stdoutFd) :
    ((runIter masterFd stdinFd stdoutFd inp).2 = true ↔
      (inp.masterReady = true ∧ (readBad inp.masterRes = true ∨ inp.stdoutWriteErr = true)) ∨
      (inp.stdinReady = true ∧ (readBad inp.stdinRes = true ∨ inp.masterWriteErr = true))) ∧
    (∀ fd bs, PEvent.writeFd fd bs ∈ (runIter masterFd stdinFd stdoutFd inp).1 →
      bs.length ≤ CHUNK) ∧
    (∀ bs, inp.masterReady = true → inp.masterRes = ReadRes.bytes bs → bs ≠ [] →
      writesTo stdoutFd (runIter masterFd stdinFd stdoutFd inp).1 = [bs]) ∧
    ((inp.masterReady = false ∨ readBad inp.masterRes = true) →
      writesTo stdoutFd (runIter masterFd stdinFd stdoutFd inp).1 = []) ∧
    (∀ bs, (inp.masterReady = false ∨
        (readBad inp.masterRes = false ∧ inp.stdoutWriteErr = false)) →
      inp.stdinReady = true → inp.stdinRes = ReadRes.bytes bs → bs ≠ [] →
      writesTo masterFd (runIter masterFd stdinFd stdoutFd inp).1 = [bs]) ∧
    ((inp.stdinReady = false ∨ readBad inp.stdinRes = true) →
      writesTo masterFd (runIter masterFd stdinFd stdoutFd inp).1 = []) := by
  refine ⟨?_, ?_,
    (runIter_writes_stdout masterFd stdinFd stdoutFd inp hfd).1,
    (runIter_writes_stdout masterFd stdinFd stdoutFd inp hfd).2,
    (runIter_writes_master masterFd stdinFd stdoutFd inp hfd).1,
    (runIter_writes_master masterFd stdinFd stdoutFd inp hfd).2⟩
  · rw [runIter_exit]
    cases hm : inp.masterReady <;> cases hs : inp.stdinReady <;>
      cases hbm : readBad inp.masterRes <;> cases hbs : readBad inp.stdinRes <;>
        cases hwo : inp.stdoutWriteErr <;> cases hwm : inp.masterWriteErr <;> simp
  · intro fd bs hmem
    rcases runIter_events masterFd stdinFd stdoutFd inp (PEvent.writeFd fd bs) hmem with
      h | h | ⟨bs2, heq, hres⟩ | ⟨bs2, heq, hres⟩
    · exact absurd h (by simp)
    · exact absurd h (by simp)
    · cases PEvent.writeFd.inj heq |>.2
      exact hwf.1 bs hres
    · cases PEvent.writeFd.inj heq |>.2
      exact hwf.2 bs hres

/-- Witness for C4_bridge_iteration at a concrete iteration input. -/
theorem C4_witness :
    ((runIter 3 0 1
        { masterReady := true, stdinReady := true,
          masterRes := ReadRes.bytes [104], stdinRes := ReadRes.bytes [113],
          stdoutWriteErr := false, masterWriteErr := false }).2 = true ↔
      (true = true ∧ (readBad (ReadRes.bytes [104]) = true ∨ false = true)) ∨
      (true = true ∧ (readBad (ReadRes.bytes [113]) = true ∨ false = true))) ∧
    (∀ fd bs, PEvent.writeFd fd bs ∈ (runIter 3 0 1
        { masterReady := true, stdinReady := true,
          masterRes := ReadRes.bytes [104], stdinRes := ReadRes.bytes [113],
          stdoutWriteErr := false, masterWriteErr := false }).1 →
      bs.length ≤ CHUNK) ∧
    (∀ bs, true = true → ReadRes.bytes [104] = ReadRes.bytes bs → bs ≠ [] →
      writesTo 1 (runIter 3 0 1
        { masterReady := true, stdinReady := true,
          masterRes := ReadRes.bytes [104], stdinRes := ReadRes.bytes [113],
          stdoutWriteErr := false, masterWriteErr := false }).1 = [bs]) ∧
    ((true = false ∨ readBad (ReadRes.bytes [104]) = true) →
      writesTo 1 (runIter 3 0 1
        { masterReady := true, stdinReady := true,
          masterRes := ReadRes.bytes [104], stdinRes := ReadRes.bytes [113],
          stdoutWriteErr := false, masterWriteErr := false }).1 = []) ∧
    (∀ bs, (true = false ∨
        (readBad (ReadRes.bytes [104]) = false ∧ false = false)) →
      true = true → ReadRes.bytes [113] = ReadRes.bytes bs → bs ≠ [] →
      writesTo 3 (runIter 3 0 1
        { masterReady := true, stdinReady := true,
          masterRes := ReadRes.bytes [104], stdinRes := ReadRes.bytes [113],
          stdoutWriteErr := false, masterWriteErr := false }).1 = [bs]) ∧
    ((true = false ∨ readBad (ReadRes.bytes [113]) = true) →
      writesTo 3 (runIter 3 0 1
        { masterReady := true, stdinReady := true,
          masterRes := ReadRes.bytes [104], stdinRes := ReadRes.bytes [113],
          stdoutWriteErr := false, masterWriteErr := false }).1 = []) := by
  exact C4_bridge_iteration 3 0 1
    { masterReady := true, stdinReady := true,
      masterRes := ReadRes.bytes [104], stdinRes := ReadRes.bytes [113],
      stdoutWriteErr := false, masterWriteErr := false }
    (by constructor <;> (intro bs h; injection h with h2; subst h2; decide)) (by decide)

/-- Claim C5, confirmed.  When the caller has closed the input
channel and the master side is quiet, the select contract reports the
input readable, its read returns zero bytes, and the loop exits in
that very iteration — i.e. after at most one readiness wait, whose
timeout is the one-second constant of the source. -/
theorem C5_input_close_prompt_exit (master stdin : Chan) (rest : List LoopInput)
    (masterFd stdinFd stdoutFd : Nat)
    (hmp : master.pending = []) (hms : master.status = ChanStatus.live)
    (hsp : stdin.pending = []) (hss : stdin.status = ChanStatus.closedByPeer) :
    stdin.selectReady = true ∧
    stdin.readRes = ReadRes.bytes [] ∧
    runLoop masterFd stdinFd stdoutFd (mkLoopInput master stdin false false :: rest)
      = ([PEvent.readFd stdinFd], true) ∧
    SELECT_TIMEOUT_SECONDS = 1 := by
  obtain ⟨mp, mst⟩ := master
  obtain ⟨sp, sst⟩ := stdin
  cases hmp
  cases hms
  cases hsp
  cases hss
  refine ⟨rfl, rfl, ?_, rfl⟩
  simp [runLoop, runIter, stdinStep, mkLoopInput, Chan.selectReady, Chan.readRes]

/-- Witness for C5_input_close_prompt_exit at concrete endpoints. -/
theorem C5_witness :
    ({ pending := [], status := ChanStatus.closedByPeer } : Chan).selectReady = true ∧
    ({ pending := [], status := ChanStatus.closedByPeer } : Chan).readRes
      = ReadRes.bytes [] ∧
    runLoop 3 0 1
        (mkLoopInput { pending := [], status := ChanStatus.live }
          { pending := [], status := ChanStatus.closedByPeer } false false :: [])
      = ([PEvent.readFd 0], true) ∧
    SELECT_TIMEOUT_SECONDS = 1 :=
  C5_input_close_prompt_exit
    { pending := [], status := ChanStatus.live }
    { pending := [], status := ChanStatus.closedByPeer }
    [] 3 0 1 rfl rfl rfl rfl

/-- Claim C7, confirmed.  In the child branch: descriptors 0, 1 and 2
all refer to the slave endpoint afterwards; the slave's original
descriptor is closed exactly when it is not one of 0/1/2 (the
source's slave_fd > 2 test, equivalent for descriptors, which are
nonnegative); the working directory is changed and TERM and COLORTERM
are set, with both environment writes placed after the chdir; and the
final action replaces the image with the shell invoked with the
interactive flag. -/
theorem C7_child_setup (shell cwd : String) (masterFd slaveFd : Nat) (init : ChildOs)
    (hms : masterFd ≠ slaveFd) (hslave : init.fds slaveFd = some PtyEnd.slaveEnd) :
    ((childRun shell cwd masterFd slaveFd init).fds 0 = some PtyEnd.slaveEnd ∧
     (childRun shell cwd masterFd slaveFd init).fds 1 = some PtyEnd.slaveEnd ∧
     (childRun shell cwd masterFd slaveFd init).fds 2 = some PtyEnd.slaveEnd) ∧
    ((childTrace shell cwd masterFd slaveFd).count (ChildEvent.closeFd slaveFd)
      = if slaveFd = 0 ∨ slaveFd = 1 ∨ slaveFd = 2 then 0 else 1) ∧
    (childRun shell cwd masterFd slaveFd init).curDir = cwd ∧
    envGet (childRun shell cwd masterFd slaveFd init).envTbl "TERM"
      = some "xterm-256color" ∧
    envGet (childRun shell cwd masterFd slaveFd init).envTbl "COLORTERM"
      = some "truecolor" ∧
    (childRun shell cwd masterFd slaveFd init).image = some (shell, [shell, "-i"]) ∧
    (∃ pre, childTrace shell cwd masterFd slaveFd
      = pre ++ [ChildEvent.chdir cwd, ChildEvent.setenv "TERM" "xterm-256color",
                ChildEvent.setenv "COLORTERM" "truecolor",
                ChildEvent.exec shell [shell, "-i"]]) := by
  have hsm : slaveFd ≠ masterFd := Ne.symm hms
  refine ⟨?_, ?_, ?_, ?_, ?_, ?_, ?_⟩
  · by_cases hgt : 2 < slaveFd
    · have h0 : (0 : Nat) ≠ slaveFd := by omega
      have h1 : (1 : Nat) ≠ slaveFd := by omega
      have h2 : (2 : Nat) ≠ slaveFd := by omega
      refine ⟨?_, ?_, ?_⟩ <;>
        simp [childRun, childTrace, applyChildEvent, hgt, hsm, h0, h1, h2, hslave]
    · interval_cases slaveFd <;> refine ⟨?_, ?_, ?_⟩ <;>
        simp [childRun, childTrace, applyChildEvent, hsm, Ne.symm hsm, hslave]
  · by_cases hgt : 2 < slaveFd
    · have hc : ¬ (slaveFd = 0 ∨ slaveFd = 1 ∨ slaveFd = 2) := by omega
      simp [childTrace, hgt, hc, List.count_cons, List.count_append, hms]
    · interval_cases slaveFd <;>
        simp [childTrace, List.count_cons, List.count_append, hms]
  · by_cases hgt : 2 < slaveFd <;>
      simp [childRun, childTrace, applyChildEvent, hgt]
  · by_cases hgt : 2 < slaveFd <;>
      simp [childRun, childTrace, applyChildEvent, envSet, envGet, hgt]
  · by_cases hgt : 2 < slaveFd <;>
      simp [childRun, childTrace, applyChildEvent, envSet, envGet, hgt]
  · by_cases hgt : 2 < slaveFd <;>
      simp [childRun, childTrace, applyChildEvent, hgt]
  · refine ⟨[ChildEvent.setsid, ChildEvent.closeFd masterFd, ChildEvent.setCtty slaveFd,
      ChildEvent.dup2 slaveFd 0, ChildEvent.dup2 slaveFd 1, ChildEvent.dup2 slaveFd 2]
      ++ (if 2 < slaveFd then [ChildEvent.closeFd slaveFd] else []), ?_⟩
    simp [childTrace]

/-- Witness for C7_child_setup at a concrete child configuration. -/
theorem C7_witness :
    ((childRun "/bin/sh" "/tmp" 3 4
        { fds := fun n => if n = 4 then some PtyEnd.slaveEnd
            else if n = 3 then some PtyEnd.masterEnd else none,
          curDir := "/", envTbl := [], image := none }).fds 0 = some PtyEnd.slaveEnd ∧
     (childRun "/bin/sh" "/tmp" 3 4
        { fds := fun n => if n = 4 then some PtyEnd.slaveEnd
            else if n = 3 then some PtyEnd.masterEnd else none,
          curDir := "/", envTbl := [], image := none }).fds 1 = some PtyEnd.slaveEnd ∧
     (childRun "/bin/sh" "/tmp" 3 4
        { fds := fun n => if n = 4 then some PtyEnd.slaveEnd
            else if n = 3 then some PtyEnd.masterEnd else none,
          curDir := "/", envTbl := [], image := none }).fds 2 = some PtyEnd.slaveEnd) ∧
    ((childTrace "/bin/sh" "/tmp" 3 4).count (ChildEvent.closeFd 4)
      = if (4 : Nat) = 0 ∨ (4 : Nat) = 1 ∨ (4 : Nat) = 2 then 0 else 1) ∧
    (childRun "/bin/sh" "/tmp" 3 4
        { fds := fun n => if n = 4 then some PtyEnd.slaveEnd
            else if n = 3 then some PtyEnd.masterEnd else none,
          curDir := "/", envTbl := [], image := none }).curDir = "/tmp" ∧
    envGet (childRun "/bin/sh" "/tmp" 3 4
        { fds := fun n => if n = 4 then some PtyEnd.slaveEnd
            else if n = 3 then some PtyEnd.masterEnd else none,
          curDir := "/", envTbl := [], image := none }).envTbl "TERM"
      = some "xterm-256color" ∧
    envGet (childRun "/bin/sh" "/tmp" 3 4
        { fds := fun n => if n = 4 then some PtyEnd.slaveEnd
            else if n = 3 then some PtyEnd.masterEnd else none,
          curDir := "/", envTbl := [], image := none }).envTbl "COLORTERM"
      = some "truecolor" ∧
    (childRun "/bin/sh" "/tmp" 3 4
        { fds := fun n => if n = 4 then some PtyEnd.slaveEnd
            else if n = 3 then some PtyEnd.masterEnd else none,
          curDir := "/", envTbl := [], image := none }).image
      = some ("/bin/sh", ["/bin/sh", "-i"]) ∧
    (∃ pre, childTrace "/bin/sh" "/tmp" 3 4
      = pre ++ [ChildEvent.chdir "/tmp", ChildEvent.setenv "TERM" "xterm-256color",
                ChildEvent.setenv "COLORTERM" "truecolor",
                ChildEvent.exec "/bin/sh" ["/bin/sh", "-i"]]) := by
  exact C7_child_setup "/bin/sh" "/tmp" 3 4
    { fds := fun n => if n = 4 then some PtyEnd.slaveEnd
        else if n = 3 then some PtyEnd.masterEnd else none,
      curDir := "/", envTbl := [], image := none }
    (by decide) (by simp)

/-- Every event the bridge loop emits is a read of the master or
stdin fd, or a write to stdout or to the master fd. -/
theorem runLoop_events (m i o : Nat) (ins : List LoopInput) :
    ∀ ev ∈ (runLoop m i o ins).1,
      ev = PEvent.readFd m ∨ ev = PEvent.readFd i ∨
      (∃ bs, ev = PEvent.writeFd o bs) ∨ (∃ bs, ev = PEvent.writeFd m bs) := by
  induction ins with
  | nil =>
    intro ev hev
    simp [runLoop] at hev
  | cons inp rest ih =>
    intro ev hev
    have hstep : ev ∈ (runIter m i o inp).1 →
        (ev = PEvent.readFd m ∨ ev = PEvent.readFd i ∨
         (∃ bs, ev = PEvent.writeFd o bs) ∨ (∃ bs, ev = PEvent.writeFd m bs)) := by
      intro hm
      rcases runIter_events m i o inp ev hm with h | h | ⟨bs, h, _⟩ | ⟨bs, h, _⟩
      · exact Or.inl h
      · exact Or.inr (Or.inl h)
      · exact Or.inr (Or.inr (Or.inl ⟨bs, h⟩))
      · exact Or.inr (Or.inr (Or.inr ⟨bs, h⟩))
    cases hx : (runIter m i o inp).2 with
    | true =>
      simp only [runLoop, hx, if_true] at hev
      exact hstep hev
    | false =>
      simp only [runLoop, hx, if_false] at hev
      rcases List.mem_append.mp hev with h | h
      · exact hstep h
      · exact ih ev h

/-- Claim C8, confirmed.  Over the parent's whole event trace, the
slave handle is closed exactly once (right after the fork) and is
never read from or written to; the loop and teardown only touch the
master, stdin and stdout descriptors. -/
theorem C8_parent_slave_discipline (masterFd slaveFd stdinFd stdoutFd : Nat)
    (inputs : List LoopInput) (e : TdEnv)
    (h1 : slaveFd ≠ masterFd) (h2 : slaveFd ≠ stdinFd) (h3 : slaveFd ≠ stdoutFd) :
    (parentTrace masterFd slaveFd stdinFd stdoutFd inputs e).count
        (PEvent.closeFd slaveFd) = 1
    ∧ ∀ ev ∈ parentTrace masterFd slaveFd stdinFd stdoutFd inputs e,
        PEvent.isReadWriteOn slaveFd ev = false := by
  have hloopzero :
      (runLoop masterFd stdinFd stdoutFd inputs).1.count (PEvent.closeFd slaveFd) = 0 := by
    rw [List.count_eq_zero]
    intro hmem
    rcases runLoop_events masterFd stdinFd stdoutFd inputs _ hmem with
      h | h | ⟨bs, h⟩ | ⟨bs, h⟩ <;> exact PEvent.noConfusion h
  have htdzero :
      (teardownEvents e masterFd).count (PEvent.closeFd slaveFd) = 0 := by
    obtain ⟨cf, kf, wf⟩ := e
    cases cf <;> cases kf <;> cases wf <;>
      simp [teardownEvents, List.count_cons, Ne.symm h1]
  constructor
  · simp [parentTrace, List.count_append, List.count_cons, hloopzero, htdzero]
  · intro ev hev
    unfold parentTrace at hev
    rcases List.mem_cons.mp hev with rfl | hev2
    · rfl
    rcases List.mem_append.mp hev2 with hl | ht
    · rcases runLoop_events masterFd stdinFd stdoutFd inputs ev hl with
        h | h | ⟨bs, h⟩ | ⟨bs, h⟩ <;> subst h <;>
        simp [PEvent.isReadWriteOn, Ne.symm h1, Ne.symm h2, Ne.symm h3]
    · obtain ⟨cf, kf, wf⟩ := e
      cases ev <;> first
        | rfl
        | (cases cf <;> cases kf <;> cases wf <;> simp [teardownEvents] at ht)

/-- Witness for C8_parent_slave_discipline at a concrete session. -/
theorem C8_witness :
    (parentTrace 3 4 0 1
        [{ masterReady := true, stdinReady := false,
           masterRes := ReadRes.bytes [104], stdinRes := ReadRes.bytes [],
           stdoutWriteErr := false, masterWriteErr := false }]
        { closeFails := false, killFails := false, waitFails := false }).count
      (PEvent.closeFd 4) = 1
    ∧ ∀ ev ∈ parentTrace 3 4 0 1
        [{ masterReady := true, stdinReady := false,
           masterRes := ReadRes.bytes [104], stdinRes := ReadRes.bytes [],
           stdoutWriteErr := false, masterWriteErr := false }]
        { closeFails := false, killFails := false, waitFails := false },
        PEvent.isReadWriteOn 4 ev = false := by
  exact C8_parent_slave_discipline 3 4 0 1
    [{ masterReady := true, stdinReady := false,
       masterRes := ReadRes.bytes [104], stdinRes := ReadRes.bytes [],
       stdoutWriteErr := false, masterWriteErr := false }]
    { closeFails := false, killFails := false, waitFails := false }
    (by decide) (by decide) (by decide)

end PtyHelper
